import Mathlib

/-!
Shallow embedding of `src/utils/check_cookies.py` (chatbetter2api):
the periodic cookie-refresh core. Python JSON values, truthiness,
SQLAlchemy queries/commits and the Redis cache mirror are modelled
explicitly; external collaborators (refresh client, sign-in, auth
fetch, Redis) are an environment of response functions, where an
`Except.error` models a raised exception.
-/

set_option maxRecDepth 4000

/-- A Python JSON value (result of `json.loads`). -/
inductive Json where
  | null
  | bool (b : Bool)
  | num (n : Int)
  | str (s : String)
  | arr (xs : List Json)
  | obj (fs : List (String × Json))

/-- Python truthiness of a JSON value (`if not cookies`). -/
def Json.truthy : Json → Bool
  | .null => false
  | .bool b => b
  | .num n => !(n == 0)
  | .str s => !(s == "")
  | .arr xs => !xs.isEmpty
  | .obj fs => !fs.isEmpty

/-- A Python string holding a (possibly invalid) serialized JSON blob:
`empty` is the falsy string `""` (or `None`), `jsonOf j` is a non-empty
string that `json.loads` decodes to `j`, `invalid` is a non-empty string
on which `json.loads` raises `JSONDecodeError`. -/
inductive CStr where
  | empty
  | jsonOf (j : Json)
  | invalid

/-- Python truthiness of a stored blob (non-empty string). -/
def CStr.truthy : CStr → Bool
  | .empty => false
  | _ => true

/-- `json.dumps`: serializing any JSON value yields a non-empty string
that decodes back to it. -/
def json_dumps (j : Json) : CStr := CStr.jsonOf j

/-- `parse_cookies_to_dict` (lines 57-68): returns `{}` on empty input,
the decoded value on a decodable string, and `{}` (after logging) on a
`JSONDecodeError`; it never raises. -/
def parse_cookies_to_dict : CStr → Json
  | .empty => Json.obj []
  | .jsonOf j => j
  | .invalid => Json.obj []

/-- Python truthiness of an optional string field (DB column: `None` or str). -/
def pyTruthyStr : Option String → Bool
  | none => false
  | some s => !(s == "")

/-- `dict.get(k)` on a Python dict modelled as an association list. -/
def pyGet {α : Type} (d : List (String × α)) (k : String) : Option α :=
  (d.find? (fun p => p.1 == k)).map (·.2)

/-- One row of the `Token` table, with the fields this module touches.
Timestamps are seconds; `deleted_at = none` means live. -/
structure Account where
  id : Nat
  enable : Nat
  silent_cookies : CStr
  access_token : Option String
  token : Option String
  auth : Option CStr
  account_type : Option Json
  cookies_expires : Option Int
  token_expires : Option Int
  count : Int
  updated_at : Option Int
  deleted_at : Option Int

/-- `account.account_type == 'paid'`. -/
def Account.isPaid (a : Account) : Bool :=
  match a.account_type with
  | some (.str s) => s == "paid"
  | _ => false

/-- The shape of each SQLAlchemy query this module issues. -/
inductive QueryKind where
  | liveOnly
  | enabledLive
  | expiring
  | byId (id : Nat)

/-- Observable actions: queries, commits, external calls, cache operations. -/
inductive Ev where
  | query (q : QueryKind)
  | refreshCall (cookies : Json)
  | commit
  | signinCall (access_token : Option String)
  | fetchAuthCall
  | cachePut (snapshot : Account) (is_paid : Bool)
  | cacheRemove (id : Nat) (is_paid : Bool)

/-- Result of `refresh_silent_cookies`: `(success, updated_cookies, access_token)`. -/
structure RefreshResult where
  success : Bool
  updated_cookies : Json
  access_token : Option String

/-- External collaborators: refresh client responses (an `Except.error`
models a raised exception) and the Redis mirror's health. -/
structure Env where
  refreshResp : Json → Except String RefreshResult
  signinResp : Option String → Except String (List (String × String))
  fetchAuthResp : Option String → Option String → Except String (List (String × Json))
  redisUp : Bool
  cacheOpFails : Bool

/-- Outcome of one `refresh_cookies` call: the session state of the row,
the snapshot committed by the mid-pipeline `db.commit()` (if reached),
the emitted events, and the boolean return value. -/
structure RefreshOut where
  acc : Account
  committed : Option Account
  events : List Ev
  ret : Bool

def secondsPerDay : Int := 86400

/-- Steps 4-5 of the pipeline happen after `db.commit()` (lines 98-111):
lazy sign-in, then auth-info fetch; an exception in either is caught by
the surrounding `except` and turns the return value into `False`. -/
def refreshStep5 (env : Env) (a : Account) (committed : Option Account)
    (evs : List Ev) : RefreshOut :=
  match env.fetchAuthResp a.token a.access_token with
  | .error _ => ⟨a, committed, evs ++ [Ev.fetchAuthCall], false⟩
  | .ok auth_data =>
    if auth_data.isEmpty then
      ⟨a, committed, evs ++ [Ev.fetchAuthCall], true⟩
    else
      ⟨{ a with auth := some (json_dumps (Json.obj auth_data)),
                account_type := pyGet auth_data "account_type" },
       committed, evs ++ [Ev.fetchAuthCall], true⟩

/-- The field updates committed by the step-3 `db.commit()` (lines 89-96):
new serialized blob, new access token, `cookies_expires = now + 30 days`,
`token_expires = now + 15 minutes`, `updated_at = now`, `enable = 1`. -/
def committedUpdate (now : Int) (account : Account) (r : RefreshResult) : Account :=
  { account with
    silent_cookies := json_dumps r.updated_cookies,
    access_token := r.access_token,
    cookies_expires := some (now + 30 * secondsPerDay),
    updated_at := some now,
    token_expires := some (now + 15 * 60),
    enable := 1 }

/-- `refresh_cookies` (lines 70-116): gate on a truthy stored blob, gate
on a truthy parsed value, call the refresh client, on a good result
commit the new blob/token/expiries/`enable=1` in one transaction, then
run steps 4-5; any exception after the gates yields `False`. -/
def refresh_cookies (env : Env) (now : Int) (account : Account) : RefreshOut :=
  if !account.silent_cookies.truthy then ⟨account, none, [], false⟩
  else
    let cookies := parse_cookies_to_dict account.silent_cookies
    if !cookies.truthy then ⟨account, none, [], false⟩
    else
      match env.refreshResp cookies with
      | .error _ => ⟨account, none, [Ev.refreshCall cookies], false⟩
      | .ok r =>
        if !r.success || !r.updated_cookies.truthy || !(pyTruthyStr r.access_token) then
          ⟨account, none, [Ev.refreshCall cookies], false⟩
        else
          let a1 : Account := committedUpdate now account r
          let evs1 := [Ev.refreshCall cookies, Ev.commit]
          if pyTruthyStr a1.access_token && !(pyTruthyStr a1.token) then
            match env.signinResp a1.access_token with
            | .error _ => ⟨a1, some a1, evs1 ++ [Ev.signinCall a1.access_token], false⟩
            | .ok auth0 =>
              refreshStep5 env { a1 with token := pyGet auth0 "token" } (some a1)
                (evs1 ++ [Ev.signinCall a1.access_token])
          else
            refreshStep5 env a1 (some a1) evs1

/-- Cache mirroring on enable/reset (put under free partition, plus paid
partition when `account_type == 'paid'`); a raised cache error stops the
remaining puts and is caught by the caller's `except`. -/
def cacheMirrorPut (env : Env) (a : Account) : List Ev :=
  if env.redisUp then
    if env.cacheOpFails then [Ev.cachePut a false]
    else Ev.cachePut a false :: (if a.isPaid then [Ev.cachePut a true] else [])
  else []

/-- Cache removal on disable, with the same partition and failure logic. -/
def cacheMirrorRemove (env : Env) (a : Account) : List Ev :=
  if env.redisUp then
    if env.cacheOpFails then [Ev.cacheRemove a.id false]
    else Ev.cacheRemove a.id false :: (if a.isPaid then [Ev.cacheRemove a.id true] else [])
  else []

/-- `disable_account` (lines 118-128): set `enable = 0`, commit, then
best-effort cache removal gated by the Redis liveness probe. -/
def disable_account (env : Env) (account : Account) : Account × List Ev :=
  let a1 := { account with enable := 0 }
  (a1, Ev.commit :: cacheMirrorRemove env a1)

/-- `enable_account` (lines 130-141): set `enable = 1`, commit, then
best-effort cache put(s) gated by the Redis liveness probe. -/
def enable_account (env : Env) (account : Account) : Account × List Ev :=
  let a1 := { account with enable := 1 }
  (a1, Ev.commit :: cacheMirrorPut env a1)

/-- Commit a row back into the table (SQLAlchemy identity map: the row
with the same primary key is replaced). -/
def updateById (db : List Account) (a : Account) : List Account :=
  db.map (fun b => if b.id == a.id then a else b)

/-- `refresh_single_account` (lines 143-166): open a fresh session, look
the account up BY ID ONLY (no `deleted_at` filter), run the pipeline,
then apply the enable/disable transition; a missing row is logged and
skipped. -/
def refresh_single_account (env : Env) (now : Int) (db : List Account)
    (account_id : Nat) : List Account × List Ev :=
  match db.find? (fun b => b.id == account_id) with
  | none => (db, [Ev.query (QueryKind.byId account_id)])
  | some account =>
    let r := refresh_cookies env now account
    if r.ret then
      let p := enable_account env r.acc
      (updateById db p.1, Ev.query (QueryKind.byId account_id) :: (r.events ++ p.2))
    else
      let p := disable_account env r.acc
      (updateById db p.1, Ev.query (QueryKind.byId account_id) :: (r.events ++ p.2))

/-- The batch pass's selection (line 175): `filter(Token.deleted_at == None)`. -/
def liveSelection (db : List Account) : List Account :=
  db.filter (fun a => a.deleted_at.isNone)

/-- The daily reset's selection (line 202):
`filter(Token.enable == 1, Token.deleted_at == None)`. -/
def enabledLiveSelection (db : List Account) : List Account :=
  db.filter (fun a => a.enable == 1 && a.deleted_at.isNone)

def EXPIRY_WARNING_DAYS : Int := 7
def CHECK_INTERVAL_SECONDS : Nat := 600
def MAX_WORKER_THREADS : Nat := 20

/-- `find_expiring_accounts` (lines 39-55): enabled, live, and cookie
expiry inside the 7-day warning window. -/
def find_expiring_accounts (now : Int) (db : List Account) :
    List Account × List Ev :=
  (db.filter (fun a =>
      a.enable == 1 && a.deleted_at.isNone &&
      (match a.cookies_expires with
       | some t => decide (t ≤ now + EXPIRY_WARNING_DAYS * secondsPerDay) && decide (now ≤ t)
       | none => false)),
   [Ev.query QueryKind.expiring])

/-- `check_and_refresh_accounts` (lines 168-193): load every live
account, then dispatch `refresh_single_account` for each id (modelled
sequentially; the thread pool only bounds concurrency). -/
def check_and_refresh_accounts (env : Env) (now : Int) (db : List Account) :
    List Account × List Ev :=
  let accounts := liveSelection db
  if accounts.isEmpty then (db, [Ev.query QueryKind.liveOnly])
  else
    accounts.foldl
      (fun st a =>
        let p := refresh_single_account env now st.1 a.id
        (p.1, st.2 ++ p.2))
      (db, [Ev.query QueryKind.liveOnly])

/-- Whether the daily reset touches a row: it was selected (enabled and
live) and its counter is positive (line 210). -/
def resetCond (a : Account) : Bool :=
  a.enable == 1 && a.deleted_at.isNone && a.count > 0

/-- `reset_account_counts` (lines 195-229): query enabled live accounts;
for each with `count > 0`, zero the counter in the session and re-mirror
its snapshot into the cache; one `db.commit()` at the end (skipped when
the query returned nothing). -/
def reset_account_counts (env : Env) (db : List Account) :
    List Account × List Ev :=
  let accounts := enabledLiveSelection db
  if accounts.isEmpty then (db, [Ev.query QueryKind.enabledLive])
  else
    let evs := accounts.foldl
      (fun evs a =>
        if a.count > 0 then evs ++ cacheMirrorPut env { a with count := 0 } else evs)
      [Ev.query QueryKind.enabledLive]
    (db.map (fun a => if resetCond a then { a with count := 0 } else a),
     evs ++ [Ev.commit])

/-- One observation of the scheduler loop body: either the body ran
normally (and `stop_scheduler` may have fired before the next poll), or
the body raised. -/
inductive SchedStep where
  | ok (stopRequested : Bool)
  | raises

/-- The `while _running` loop (lines 249-256) with its `except`/`finally`:
given the trace of loop-body observations and the current flag, returns
`some (bodyRuns, finalFlag)` when the loop exits within the trace, and
`none` when the trace ends with the loop still running. The `finally`
clears the flag on both the normal and the exceptional exit. -/
def sched_loop : List SchedStep → Bool → Option (Nat × Bool)
  | _, false => some (0, false)
  | [], true => none
  | SchedStep.ok stop :: rest, true =>
    match sched_loop rest (!stop) with
    | none => none
    | some (n, f) => some (n + 1, f)
  | SchedStep.raises :: _, true => some (1, false)

/-- `run_scheduler` (lines 233-256): if the flag is already set, log and
return without running any loop iteration; otherwise set the flag and
enter the loop. -/
def run_scheduler (steps : List SchedStep) (runningFlag : Bool) :
    Option (Nat × Bool) :=
  if runningFlag then some (0, runningFlag)
  else sched_loop steps true

/-- `stop_scheduler` (lines 258-262): clear the flag. -/
def stop_scheduler (_runningFlag : Bool) : Bool :=
  false

/-- The two jobs registered by `run_scheduler` (lines 243-244). -/
inductive JobKind where
  | batchRefresh
  | resetCounts

def scheduledJobs : List JobKind :=
  [JobKind.batchRefresh, JobKind.resetCounts]

/-- What each registered job runs when due. -/
def jobAction (j : JobKind) (env : Env) (now : Int) (db : List Account) :
    List Account × List Ev :=
  match j with
  | JobKind.batchRefresh => check_and_refresh_accounts env now db
  | JobKind.resetCounts => reset_account_counts env db

/-- Run the dispatched unit of work for one account id `n` times in
succession (successive refresh cycles), accumulating the events. -/
def runPipelineN (env : Env) (now : Int) (account_id : Nat) :
    Nat → List Account → List Account × List Ev
  | 0, db => (db, [])
  | n + 1, db =>
    let p := refresh_single_account env now db account_id
    let q := runPipelineN env now account_id n p.1
    (q.1, p.2 ++ q.2)

/-! Concrete fixtures used by witnesses and counterexamples. -/

/-- Scenario A's stored blob value: `{"a":"b"}`. -/
def cookiesAB : Json := Json.obj [("a", Json.str "b")]

/-- Scenario A's refresh-client reply: `(true, {"a":"c"}, "tok123")`. -/
def goodResult : RefreshResult :=
  ⟨true, Json.obj [("a", Json.str "c")], some "tok123"⟩

/-- A healthy environment: refresh succeeds, sign-in returns a session
token, auth fetch returns a paid identity, Redis is up. -/
def envOk : Env :=
  { refreshResp := fun _ => Except.ok goodResult,
    signinResp := fun _ => Except.ok [("token", "sess1")],
    fetchAuthResp := fun _ _ => Except.ok [("account_type", Json.str "paid")],
    redisUp := true,
    cacheOpFails := false }

/-- Like `envOk`, but `signin_with_access_token` raises. -/
def envSigninRaises : Env :=
  { envOk with signinResp := fun _ => Except.error "signin boom" }

/-- Like `envOk`, but the refresh client reports `(false, null, null)`
(Scenario C) and Redis is down. -/
def envBad : Env :=
  { envOk with refreshResp := fun _ => Except.ok ⟨false, Json.null, none⟩,
               redisUp := false }

/-- Like `envOk`, but Redis's liveness probe fails. -/
def envRedisDown : Env :=
  { envOk with redisUp := false }

/-- A live account with a valid stored blob and no tokens yet. -/
def acct0 : Account :=
  { id := 1, enable := 1,
    silent_cookies := CStr.jsonOf cookiesAB,
    access_token := none, token := none, auth := none, account_type := none,
    cookies_expires := some 100, token_expires := some 50, count := 0,
    updated_at := some 0, deleted_at := none }

/-- A soft-deleted account (`deleted_at != null`). -/
def acctDel : Account := { acct0 with deleted_at := some 5 }

/-- A live account that already holds a session token. -/
def acctTok : Account := { acct0 with token := some "sess0" }

/-- A live, enabled account with a positive usage counter. -/
def acctCnt : Account := { acct0 with count := 5 }

/-- A live account whose stored blob decodes to the empty object `{}`. -/
def acctEmptyObj : Account := { acct0 with silent_cookies := CStr.jsonOf (Json.obj []) }

/-- A live, disabled account whose cookie expiry is far outside the
7-day warning window. -/
def acctFar : Account :=
  { acct0 with enable := 0, cookies_expires := some 1000000000 }

/-! Helper lemmas about the pipeline's step 5 and the success path. -/

theorem step5_committed (env : Env) (a : Account) (c : Option Account)
    (evs : List Ev) : (refreshStep5 env a c evs).committed = c := by
  unfold refreshStep5
  cases env.fetchAuthResp a.token a.access_token with
  | error e => rfl
  | ok l => by_cases h : l.isEmpty <;> simp [h]

theorem step5_events (env : Env) (a : Account) (c : Option Account)
    (evs : List Ev) : (refreshStep5 env a c evs).events = evs ++ [Ev.fetchAuthCall] := by
  unfold refreshStep5
  cases env.fetchAuthResp a.token a.access_token with
  | error e => rfl
  | ok l => by_cases h : l.isEmpty <;> simp [h]

theorem step5_acc_pres (env : Env) (a : Account) (c : Option Account)
    (evs : List Ev) :
    (refreshStep5 env a c evs).acc.enable = a.enable ∧
    (refreshStep5 env a c evs).acc.silent_cookies = a.silent_cookies ∧
    (refreshStep5 env a c evs).acc.access_token = a.access_token ∧
    (refreshStep5 env a c evs).acc.cookies_expires = a.cookies_expires ∧
    (refreshStep5 env a c evs).acc.token_expires = a.token_expires ∧
    (refreshStep5 env a c evs).acc.updated_at = a.updated_at ∧
    (refreshStep5 env a c evs).acc.token = a.token ∧
    (refreshStep5 env a c evs).acc.id = a.id := by
  unfold refreshStep5
  cases env.fetchAuthResp a.token a.access_token with
  | error e => exact ⟨rfl, rfl, rfl, rfl, rfl, rfl, rfl, rfl⟩
  | ok l => by_cases h : l.isEmpty <;> simp [h]

/-- On the success path the pipeline reduces to: commit the snapshot,
then run steps 4-5 on it. -/
theorem refresh_cookies_good (env : Env) (now : Int) (a : Account)
    (r : RefreshResult)
    (h1 : a.silent_cookies.truthy = true)
    (h2 : (parse_cookies_to_dict a.silent_cookies).truthy = true)
    (hr : env.refreshResp (parse_cookies_to_dict a.silent_cookies) = Except.ok r)
    (hs : r.success = true) (hu : r.updated_cookies.truthy = true)
    (ht : pyTruthyStr r.access_token = true) :
    refresh_cookies env now a =
      (if pyTruthyStr (committedUpdate now a r).access_token
          && !(pyTruthyStr (committedUpdate now a r).token) then
        match env.signinResp (committedUpdate now a r).access_token with
        | Except.error _ =>
          ⟨committedUpdate now a r, some (committedUpdate now a r),
           [Ev.refreshCall (parse_cookies_to_dict a.silent_cookies), Ev.commit,
            Ev.signinCall (committedUpdate now a r).access_token], false⟩
        | Except.ok auth0 =>
          refreshStep5 env
            { committedUpdate now a r with token := pyGet auth0 "token" }
            (some (committedUpdate now a r))
            [Ev.refreshCall (parse_cookies_to_dict a.silent_cookies), Ev.commit,
             Ev.signinCall (committedUpdate now a r).access_token]
      else
        refreshStep5 env (committedUpdate now a r) (some (committedUpdate now a r))
          [Ev.refreshCall (parse_cookies_to_dict a.silent_cookies), Ev.commit]) := by
  unfold refresh_cookies
  rw [h1]
  simp only [Bool.not_true, Bool.false_eq_true, if_false, ite_false]
  rw [h2]
  simp only [Bool.not_true, Bool.false_eq_true, if_false, ite_false]
  rw [hr]
  simp only [hs, hu, ht, Bool.not_true, Bool.false_or, Bool.or_self, if_false, ite_false]
  simp

/-- On a bad refresh-client result the pipeline fails with the account
and the committed state untouched. -/
theorem refresh_cookies_badresult (env : Env) (now : Int) (a : Account)
    (r : RefreshResult)
    (h1 : a.silent_cookies.truthy = true)
    (h2 : (parse_cookies_to_dict a.silent_cookies).truthy = true)
    (hr : env.refreshResp (parse_cookies_to_dict a.silent_cookies) = Except.ok r)
    (hbad : r.success = false ∨ r.updated_cookies.truthy = false ∨
      pyTruthyStr r.access_token = false) :
    refresh_cookies env now a =
      ⟨a, none, [Ev.refreshCall (parse_cookies_to_dict a.silent_cookies)], false⟩ := by
  unfold refresh_cookies
  rw [h1]
  simp only [Bool.not_true, Bool.false_eq_true, if_false, ite_false]
  rw [h2]
  simp only [Bool.not_true, Bool.false_eq_true, if_false, ite_false]
  rw [hr]
  have hc : (!r.success || !r.updated_cookies.truthy || !(pyTruthyStr r.access_token)) = true := by
    rcases hbad with h | h | h <;> simp [h]
  simp only [hc, if_true, ite_true]

/-- When the stored blob decodes to a falsy value the pipeline fails
before any external call, leaving the account untouched. -/
theorem refresh_cookies_falsy_parse (env : Env) (now : Int) (a : Account)
    (j : Json) (hs : a.silent_cookies = CStr.jsonOf j) (hj : j.truthy = false) :
    refresh_cookies env now a = ⟨a, none, [], false⟩ := by
  unfold refresh_cookies
  rw [hs]
  simp [CStr.truthy, parse_cookies_to_dict, hj]

/-- After both gates pass, every branch of the pipeline opens its event
trace with the refresh-client call. -/
theorem refresh_events_shape (env : Env) (now : Int) (a : Account)
    (h1 : a.silent_cookies.truthy = true)
    (h2 : (parse_cookies_to_dict a.silent_cookies).truthy = true) :
    ∃ rest, (refresh_cookies env now a).events
      = Ev.refreshCall (parse_cookies_to_dict a.silent_cookies) :: rest := by
  rcases hr : env.refreshResp (parse_cookies_to_dict a.silent_cookies) with e | r
  · unfold refresh_cookies
    rw [h1]
    simp only [Bool.not_true, Bool.false_eq_true, if_false, ite_false]
    rw [h2]
    simp only [Bool.not_true, Bool.false_eq_true, if_false, ite_false]
    rw [hr]
    exact ⟨[], rfl⟩
  · by_cases hbad : r.success = false ∨ r.updated_cookies.truthy = false ∨
      pyTruthyStr r.access_token = false
    · rw [refresh_cookies_badresult env now a r h1 h2 hr hbad]
      exact ⟨[], rfl⟩
    · push_neg at hbad
      obtain ⟨hs, hu, ht⟩ := hbad
      have hs' : r.success = true := by simpa using hs
      have hu' : r.updated_cookies.truthy = true := by simpa using hu
      have ht' : pyTruthyStr r.access_token = true := by simpa using ht
      rw [refresh_cookies_good env now a r h1 h2 hr hs' hu' ht']
      split
      · rcases env.signinResp (committedUpdate now a r).access_token with e | auth0
        · exact ⟨_, rfl⟩
        · rw [step5_events]
          exact ⟨_, rfl⟩
      · rw [step5_events]
        exact ⟨_, rfl⟩

/-- When the by-id lookup finds a row, the unit of work is exactly
pipeline-then-transition on that row. -/
theorem refresh_single_account_found (env : Env) (now : Int) (db : List Account)
    (i : Nat) (a : Account) (h : db.find? (fun b => b.id == i) = some a) :
    refresh_single_account env now db i =
      (if (refresh_cookies env now a).ret then
        (updateById db (enable_account env (refresh_cookies env now a).acc).1,
         Ev.query (QueryKind.byId i) ::
           ((refresh_cookies env now a).events ++
             (enable_account env (refresh_cookies env now a).acc).2))
      else
        (updateById db (disable_account env (refresh_cookies env now a).acc).1,
         Ev.query (QueryKind.byId i) ::
           ((refresh_cookies env now a).events ++
             (disable_account env (refresh_cookies env now a).acc).2))) := by
  unfold refresh_single_account
  rw [h]

/-- The loop exits immediately once the flag is observed false. -/
theorem sched_loop_stopped (steps : List SchedStep) :
    sched_loop steps false = some (0, false) := by
  cases steps with
  | nil => rfl
  | cons s t => cases s <;> rfl

theorem sched_loop_final_flag :
    ∀ (steps : List SchedStep) (b : Bool) (n : Nat) (f : Bool),
      sched_loop steps b = some (n, f) → f = false := by
  intro steps
  induction steps with
  | nil =>
    intro b n f h
    cases b
    · simp [sched_loop] at h
      exact h.2
    · simp [sched_loop] at h
  | cons s rest ih =>
    intro b n f h
    cases b
    · simp [sched_loop] at h
      exact h.2
    · cases s with
      | raises =>
        simp [sched_loop] at h
        exact h.2
      | ok stop =>
        unfold sched_loop at h
        rcases hm : sched_loop rest (!stop) with _ | ⟨m, g⟩ <;> rw [hm] at h
        · simp at h
        · simp at h
          exact h.2 ▸ ih (!stop) m g hm

/-- C10: the credential-parse gate tests only Python truthiness of the
parsed value: a blob decoding to any falsy JSON value (in particular the
valid empty object) is treated as a parse failure and `refresh_cookies`
returns false without calling the refresh client, while any truthy
decoded value (object or not) is forwarded to the refresh client;
`parse_cookies_to_dict` never raises and returns the empty object on
empty input or a decode error. -/
theorem c10_parse_gate :
    parse_cookies_to_dict CStr.empty = Json.obj [] ∧
    parse_cookies_to_dict CStr.invalid = Json.obj [] ∧
    (∀ (env : Env) (now : Int) (a : Account) (j : Json),
      a.silent_cookies = CStr.jsonOf j → j.truthy = false →
      (refresh_cookies env now a).ret = false ∧
      (refresh_cookies env now a).events = [] ∧
      (refresh_cookies env now a).acc = a) ∧
    (∀ (env : Env) (now : Int) (a : Account) (j : Json),
      a.silent_cookies = CStr.jsonOf j → j.truthy = true →
      Ev.refreshCall j ∈ (refresh_cookies env now a).events) := by
  refine ⟨rfl, rfl, ?_, ?_⟩
  · intro env now a j hs hj
    rw [refresh_cookies_falsy_parse env now a j hs hj]
    exact ⟨rfl, rfl, rfl⟩
  · intro env now a j hs hj
    have h1 : a.silent_cookies.truthy = true := by rw [hs]; rfl
    have hp : parse_cookies_to_dict a.silent_cookies = j := by
      rw [hs]
      rfl
    have h2 : (parse_cookies_to_dict a.silent_cookies).truthy = true := by
      rw [hp]; exact hj
    obtain ⟨rest, hre⟩ := refresh_events_shape env now a h1 h2
    rw [hre, hp]
    exact List.mem_cons_self _ _

/-- Witness for C10 at Scenario-like inputs: a stored blob decoding to
the valid empty object `{}` makes the pipeline fail. -/
theorem c10_parse_gate_witness :
    (refresh_cookies envOk 0 acctEmptyObj).ret = false :=
  (c10_parse_gate.2.2.1 envOk 0 acctEmptyObj (Json.obj []) rfl rfl).1

/-- C8: in both state-machine transitions the new enable flag is
committed first (the commit event opens the trace), every cache
operation is gated on the liveness probe (no cache events when the probe
fails), and the committed enable/disable outcome does not depend on the
cache environment at all. -/
theorem c8_transition_commit_first :
    (∀ (env : Env) (a : Account), (enable_account env a).1.enable = 1) ∧
    (∀ (env : Env) (a : Account), (disable_account env a).1.enable = 0) ∧
    (∀ (env env' : Env) (a : Account),
      (enable_account env a).1 = (enable_account env' a).1 ∧
      (disable_account env a).1 = (disable_account env' a).1) ∧
    (∀ (env : Env) (a : Account),
      (∃ c, (enable_account env a).2 = Ev.commit :: c) ∧
      (∃ c, (disable_account env a).2 = Ev.commit :: c)) ∧
    (∀ (env : Env) (a : Account), env.redisUp = false →
      (enable_account env a).2 = [Ev.commit] ∧
      (disable_account env a).2 = [Ev.commit]) := by
  refine ⟨fun env a => rfl, fun env a => rfl, fun env env' a => ⟨rfl, rfl⟩,
    fun env a => ⟨⟨_, rfl⟩, ⟨_, rfl⟩⟩, ?_⟩
  intro env a h
  constructor <;>
    simp [enable_account, disable_account, cacheMirrorPut, cacheMirrorRemove, h]

/-- Witness for C8: with the Redis probe down, both transitions only commit. -/
theorem c8_transition_commit_first_witness :
    (enable_account envRedisDown acct0).2 = [Ev.commit] ∧
    (disable_account envRedisDown acct0).2 = [Ev.commit] :=
  c8_transition_commit_first.2.2.2.2 envRedisDown acct0 rfl

/-- C9: a second `run_scheduler` call while the flag is set runs zero
loop iterations; whenever the loop exits within its observation trace
the flag ends false; a body exception terminates the loop after that
iteration with the flag cleared; a stop request makes the loop exit at
its next poll; `stop_scheduler` clears the flag. -/
theorem c9_scheduler_flag :
    (∀ steps, run_scheduler steps true = some (0, true)) ∧
    (∀ (steps : List SchedStep) (b : Bool) (n : Nat) (f : Bool),
      sched_loop steps b = some (n, f) → f = false) ∧
    (∀ rest, sched_loop (SchedStep.raises :: rest) true = some (1, false)) ∧
    (∀ rest, sched_loop (SchedStep.ok true :: rest) true = some (1, false)) ∧
    (∀ b, stop_scheduler b = false) := by
  refine ⟨fun steps => rfl, sched_loop_final_flag, fun rest => rfl, ?_, fun b => rfl⟩
  intro rest
  unfold sched_loop
  rw [Bool.not_true, sched_loop_stopped]

/-- Witness for C9: the loop observed raising on its first iteration
exits with the flag false. -/
theorem c9_scheduler_flag_witness : (false : Bool) = false :=
  c9_scheduler_flag.2.1 [SchedStep.raises] true 1 false rfl

/-- C1 as stated is false: the per-unit lookup (line 148) filters only
on `Token.id`, so a dispatched unit of work given the id of a
soft-deleted account reads it, runs the pipeline on it, and commits a
transition (here: disables it) — the core does read and mutate an
account with `deleted_at != null`. -/
theorem c1_counterexample :
    acctDel.deleted_at ≠ none ∧
    [acctDel].find? (fun b => b.id == 1) = some acctDel ∧
    (refresh_single_account envBad 0 [acctDel] 1).1 = [{ acctDel with enable := 0 }] ∧
    (refresh_single_account envBad 0 [acctDel] 1).2
      = [Ev.query (QueryKind.byId 1), Ev.refreshCall cookiesAB, Ev.commit] := by
  refine ⟨?_, rfl, rfl, rfl⟩
  decide

/-- C1 amended: every set-valued query of this core (batch load, daily
reset selection, expiring-accounts lookup) excludes non-null
`deleted_at`, but the per-unit lookup-by-id inside a dispatched unit of
work filters only on the id: whatever account that lookup returns —
soft-deleted or not — is refreshed and has an enable/disable transition
committed on it. -/
theorem c1_amended :
    (∀ (db : List Account) (a : Account), a ∈ liveSelection db → a.deleted_at = none) ∧
    (∀ (db : List Account) (a : Account), a ∈ enabledLiveSelection db → a.deleted_at = none) ∧
    (∀ (now : Int) (db : List Account) (a : Account),
      a ∈ (find_expiring_accounts now db).1 → a.deleted_at = none) ∧
    (∀ (env : Env) (now : Int) (db : List Account) (i : Nat) (a : Account),
      db.find? (fun b => b.id == i) = some a →
      refresh_single_account env now db i =
        (if (refresh_cookies env now a).ret then
          (updateById db (enable_account env (refresh_cookies env now a).acc).1,
           Ev.query (QueryKind.byId i) ::
             ((refresh_cookies env now a).events ++
               (enable_account env (refresh_cookies env now a).acc).2))
        else
          (updateById db (disable_account env (refresh_cookies env now a).acc).1,
           Ev.query (QueryKind.byId i) ::
             ((refresh_cookies env now a).events ++
               (disable_account env (refresh_cookies env now a).acc).2)))) := by
  refine ⟨?_, ?_, ?_, ?_⟩
  · intro db a h
    have := (List.mem_filter.mp h).2
    exact Option.isNone_iff_eq_none.mp this
  · intro db a h
    have := (List.mem_filter.mp h).2
    rw [Bool.and_eq_true] at this
    exact Option.isNone_iff_eq_none.mp this.2
  · intro now db a h
    have := (List.mem_filter.mp h).2
    rw [Bool.and_eq_true, Bool.and_eq_true] at this
    exact Option.isNone_iff_eq_none.mp this.1.2
  · intro env now db i a h
    exact refresh_single_account_found env now db i a h

/-- Witness for C1 (amended): a live account is returned by the batch
selection only with a null soft-delete marker, and the unit of work on a
found account reduces to pipeline-then-transition. -/
theorem c1_amended_witness :
    acct0.deleted_at = none ∧
    refresh_single_account envBad 0 [acctDel] 1 =
      (if (refresh_cookies envBad 0 acctDel).ret then
        (updateById [acctDel] (enable_account envBad (refresh_cookies envBad 0 acctDel).acc).1,
         Ev.query (QueryKind.byId 1) ::
           ((refresh_cookies envBad 0 acctDel).events ++
             (enable_account envBad (refresh_cookies envBad 0 acctDel).acc).2))
      else
        (updateById [acctDel] (disable_account envBad (refresh_cookies envBad 0 acctDel).acc).1,
         Ev.query (QueryKind.byId 1) ::
           ((refresh_cookies envBad 0 acctDel).events ++
             (disable_account envBad (refresh_cookies envBad 0 acctDel).acc).2))) :=
  ⟨c1_amended.1 [acct0] acct0 (by simp [liveSelection, acct0]),
   c1_amended.2.2.2 envBad 0 [acctDel] 1 acctDel rfl⟩

/-- If the auth-info fetch does not raise, steps 4-5 cannot flip the
pipeline verdict: it returns true whether or not the fetched identity is
empty. -/
theorem step5_ret (env : Env) (a : Account) (c : Option Account)
    (evs : List Ev) (l : List (String × Json))
    (h : env.fetchAuthResp a.token a.access_token = Except.ok l) :
    (refreshStep5 env a c evs).ret = true := by
  unfold refreshStep5
  rw [h]
  by_cases he : l.isEmpty <;> simp [he]

/-- C2 as stated is false: with a committed step-3 success, an exception
raised by the step-4 sign-in makes `refresh_cookies` return false, and
the caller then disables the account, overriding the already-committed
`enable = 1`. -/
theorem c2_counterexample :
    (refresh_cookies envSigninRaises 0 acct0).committed
      = some (committedUpdate 0 acct0 goodResult) ∧
    (refresh_cookies envSigninRaises 0 acct0).ret = false ∧
    (refresh_single_account envSigninRaises 0 [acct0] 1).1
      = [{ committedUpdate 0 acct0 goodResult with enable := 0 }] :=
  ⟨rfl, rfl, rfl⟩

/-- C2 amended: once step 3 has committed, the pipeline returns true
exactly when steps 4-5 raise no exception (an empty identity fetch is
non-fatal); an exception raised after the success commit (e.g. in the
sign-in) is caught and converted to a false return, and the caller then
disables the account, overriding the committed `enable = 1`. -/
theorem c2_amended :
    (∀ (env : Env) (now : Int) (a : Account) (r : RefreshResult),
      a.silent_cookies.truthy = true →
      (parse_cookies_to_dict a.silent_cookies).truthy = true →
      env.refreshResp (parse_cookies_to_dict a.silent_cookies) = Except.ok r →
      r.success = true → r.updated_cookies.truthy = true →
      pyTruthyStr r.access_token = true →
      (∀ t, ∃ d, env.signinResp t = Except.ok d) →
      (∀ x y, ∃ l, env.fetchAuthResp x y = Except.ok l) →
      (refresh_cookies env now a).ret = true ∧
      (refresh_cookies env now a).committed = some (committedUpdate now a r)) ∧
    (∀ (env : Env) (now : Int) (a : Account) (r : RefreshResult) (e : String),
      a.silent_cookies.truthy = true →
      (parse_cookies_to_dict a.silent_cookies).truthy = true →
      env.refreshResp (parse_cookies_to_dict a.silent_cookies) = Except.ok r →
      r.success = true → r.updated_cookies.truthy = true →
      pyTruthyStr r.access_token = true →
      pyTruthyStr a.token = false →
      env.signinResp r.access_token = Except.error e →
      (refresh_cookies env now a).ret = false ∧
      (refresh_cookies env now a).committed = some (committedUpdate now a r) ∧
      ∀ db, db.find? (fun b => b.id == a.id) = some a →
        (refresh_single_account env now db a.id).1
          = updateById db { committedUpdate now a r with enable := 0 }) := by
  constructor
  · intro env now a r h1 h2 hr hs hu ht hsig hfetch
    rw [refresh_cookies_good env now a r h1 h2 hr hs hu ht]
    split
    · obtain ⟨d, hd⟩ := hsig (committedUpdate now a r).access_token
      rw [hd]
      obtain ⟨l, hl⟩ := hfetch
        ({ committedUpdate now a r with token := pyGet d "token" }).token
        ({ committedUpdate now a r with token := pyGet d "token" }).access_token
      exact ⟨step5_ret _ _ _ _ l hl, step5_committed _ _ _ _⟩
    · obtain ⟨l, hl⟩ := hfetch (committedUpdate now a r).token
        (committedUpdate now a r).access_token
      exact ⟨step5_ret _ _ _ _ l hl, step5_committed _ _ _ _⟩
  · intro env now a r e h1 h2 hr hs hu ht htok hsig
    have hat : (committedUpdate now a r).access_token = r.access_token := rfl
    have hcond : (pyTruthyStr (committedUpdate now a r).access_token
        && !(pyTruthyStr (committedUpdate now a r).token)) = true := by
      show (pyTruthyStr r.access_token && !(pyTruthyStr a.token)) = true
      rw [ht, htok]
      rfl
    have hrc : refresh_cookies env now a =
        ⟨committedUpdate now a r, some (committedUpdate now a r),
         [Ev.refreshCall (parse_cookies_to_dict a.silent_cookies), Ev.commit,
          Ev.signinCall (committedUpdate now a r).access_token], false⟩ := by
      rw [refresh_cookies_good env now a r h1 h2 hr hs hu ht, if_pos hcond,
        hat, hsig]
    refine ⟨by rw [hrc], by rw [hrc], ?_⟩
    intro db hdb
    rw [refresh_single_account_found env now db a.id a hdb, hrc]
    simp [disable_account]

/-- Witness for C2 (amended): a sign-in exception after the success
commit yields a false return at a concrete account and environment. -/
theorem c2_amended_witness :
    (refresh_cookies envSigninRaises 0 acct0).ret = false :=
  (c2_amended.2 envSigninRaises 0 acct0 goodResult "signin boom"
    rfl rfl rfl rfl rfl rfl rfl rfl).1

/-- C3: whenever the refresh client reports success with a truthy
updated mapping and access token, the account — whatever steps 4-5 then
do — ends the pipeline with `enable = 1`, `cookies_expires = now + 30
days`, `token_expires = now + 15 minutes`, `updated_at = now`, and a
stored blob that is the serialization of (and parses back to) the
updated mapping; the same fields are in the snapshot committed by the
step-3 transaction, whose commit event precedes every downstream
derived call in the trace. -/
theorem c3_success_commit :
    ∀ (env : Env) (now : Int) (a : Account) (r : RefreshResult),
      a.silent_cookies.truthy = true →
      (parse_cookies_to_dict a.silent_cookies).truthy = true →
      env.refreshResp (parse_cookies_to_dict a.silent_cookies) = Except.ok r →
      r.success = true → r.updated_cookies.truthy = true →
      pyTruthyStr r.access_token = true →
      (refresh_cookies env now a).acc.enable = 1 ∧
      (refresh_cookies env now a).acc.cookies_expires
        = some (now + 30 * secondsPerDay) ∧
      (refresh_cookies env now a).acc.token_expires = some (now + 15 * 60) ∧
      (refresh_cookies env now a).acc.updated_at = some now ∧
      (refresh_cookies env now a).acc.silent_cookies = json_dumps r.updated_cookies ∧
      parse_cookies_to_dict (refresh_cookies env now a).acc.silent_cookies
        = r.updated_cookies ∧
      (refresh_cookies env now a).committed = some (committedUpdate now a r) ∧
      (committedUpdate now a r).enable = 1 ∧
      (committedUpdate now a r).silent_cookies = json_dumps r.updated_cookies ∧
      (committedUpdate now a r).access_token = r.access_token ∧
      ∃ rest, (refresh_cookies env now a).events
        = Ev.refreshCall (parse_cookies_to_dict a.silent_cookies)
          :: Ev.commit :: rest := by
  intro env now a r h1 h2 hr hs hu ht
  rw [refresh_cookies_good env now a r h1 h2 hr hs hu ht]
  split
  · rcases hd : env.signinResp (committedUpdate now a r).access_token with e | d
    · exact ⟨rfl, rfl, rfl, rfl, rfl, rfl, rfl, rfl, rfl, rfl, _, rfl⟩
    · obtain ⟨e1, e2, e3, e4, e5, e6, e7, e8⟩ := step5_acc_pres env
        { committedUpdate now a r with token := pyGet d "token" }
        (some (committedUpdate now a r))
        [Ev.refreshCall (parse_cookies_to_dict a.silent_cookies), Ev.commit,
         Ev.signinCall (committedUpdate now a r).access_token]
      refine ⟨e1.trans rfl, e4.trans rfl, e5.trans rfl, e6.trans rfl,
        e2.trans rfl, ?_, step5_committed _ _ _ _, rfl, rfl, rfl, ?_⟩
      · rw [e2]
        rfl
      · rw [step5_events]
        exact ⟨_, rfl⟩
  · obtain ⟨e1, e2, e3, e4, e5, e6, e7, e8⟩ := step5_acc_pres env
      (committedUpdate now a r) (some (committedUpdate now a r))
      [Ev.refreshCall (parse_cookies_to_dict a.silent_cookies), Ev.commit]
    refine ⟨e1.trans rfl, e4.trans rfl, e5.trans rfl, e6.trans rfl,
      e2.trans rfl, ?_, step5_committed _ _ _ _, rfl, rfl, rfl, ?_⟩
    · rw [e2]
      rfl
    · rw [step5_events]
      exact ⟨_, rfl⟩

/-- Witness for C3 at Scenario A: blob `{"a":"b"}`, client returns
`(true, {"a":"c"}, "tok123")`; the pipeline leaves the account enabled. -/
theorem c3_success_commit_witness :
    (refresh_cookies envOk 0 acct0).acc.enable = 1 :=
  (c3_success_commit envOk 0 acct0 goodResult rfl rfl rfl rfl rfl rfl).1

/-- C4: when the refresh client reports failure, an empty updated
mapping, or an empty access token, the pipeline returns false with the
account and the committed state untouched, and the dispatched unit of
work then commits exactly `enable = 0`, leaving the blob, access token
and both expiry fields unchanged. -/
theorem c4_failure_unchanged :
    ∀ (env : Env) (now : Int) (a : Account) (r : RefreshResult),
      a.silent_cookies.truthy = true →
      (parse_cookies_to_dict a.silent_cookies).truthy = true →
      env.refreshResp (parse_cookies_to_dict a.silent_cookies) = Except.ok r →
      (r.success = false ∨ r.updated_cookies.truthy = false ∨
        pyTruthyStr r.access_token = false) →
      (refresh_cookies env now a).ret = false ∧
      (refresh_cookies env now a).acc = a ∧
      (refresh_cookies env now a).committed = none ∧
      ∀ db, db.find? (fun b => b.id == a.id) = some a →
        (refresh_single_account env now db a.id).1
          = updateById db { a with enable := 0 } := by
  intro env now a r h1 h2 hr hbad
  have hrc := refresh_cookies_badresult env now a r h1 h2 hr hbad
  refine ⟨by rw [hrc], by rw [hrc], by rw [hrc], ?_⟩
  intro db hdb
  rw [refresh_single_account_found env now db a.id a hdb, hrc]
  simp [disable_account]

/-- Witness for C4 at Scenario C: the client returns `(false, null,
null)`; the pipeline fails and the caller disables the account. -/
theorem c4_failure_unchanged_witness :
    (refresh_cookies envBad 0 acct0).ret = false ∧
    (refresh_single_account envBad 0 [acct0] acct0.id).1
      = updateById [acct0] { acct0 with enable := 0 } :=
  ⟨(c4_failure_unchanged envBad 0 acct0 ⟨false, Json.null, none⟩
      rfl rfl rfl (Or.inl rfl)).1,
   (c4_failure_unchanged envBad 0 acct0 ⟨false, Json.null, none⟩
      rfl rfl rfl (Or.inl rfl)).2.2.2 [acct0] rfl⟩

/-- Gate 1 (line 74): a falsy stored blob fails immediately. -/
theorem refresh_cookies_gate1 (env : Env) (now : Int) (a : Account)
    (h : a.silent_cookies.truthy = false) :
    refresh_cookies env now a = ⟨a, none, [], false⟩ := by
  simp [refresh_cookies, h]

/-- Gate 2 (line 79): a falsy parsed value fails immediately. -/
theorem refresh_cookies_gate2 (env : Env) (now : Int) (a : Account)
    (h1 : a.silent_cookies.truthy = true)
    (h2 : (parse_cookies_to_dict a.silent_cookies).truthy = false) :
    refresh_cookies env now a = ⟨a, none, [], false⟩ := by
  unfold refresh_cookies
  rw [h1]
  simp only [Bool.not_true, Bool.false_eq_true, if_false, ite_false]
  rw [h2]
  simp

/-- A refresh-client exception is caught and the pipeline fails. -/
theorem refresh_cookies_clienterror (env : Env) (now : Int) (a : Account)
    (e : String)
    (h1 : a.silent_cookies.truthy = true)
    (h2 : (parse_cookies_to_dict a.silent_cookies).truthy = true)
    (hr : env.refreshResp (parse_cookies_to_dict a.silent_cookies) = Except.error e) :
    refresh_cookies env now a =
      ⟨a, none, [Ev.refreshCall (parse_cookies_to_dict a.silent_cookies)], false⟩ := by
  unfold refresh_cookies
  rw [h1]
  simp only [Bool.not_true, Bool.false_eq_true, if_false, ite_false]
  rw [h2]
  simp only [Bool.not_true, Bool.false_eq_true, if_false, ite_false]
  rw [hr]

/-- When the account already holds a session token, the lazy sign-in
gate (line 98) is closed: the pipeline never calls sign-in and never
changes the token. -/
theorem refresh_token_preserved (env : Env) (now : Int) (a : Account)
    (h : pyTruthyStr a.token = true) :
    (refresh_cookies env now a).acc.token = a.token ∧
    ∀ t, Ev.signinCall t ∉ (refresh_cookies env now a).events := by
  by_cases h1 : a.silent_cookies.truthy = true
  · by_cases h2 : (parse_cookies_to_dict a.silent_cookies).truthy = true
    · rcases hr : env.refreshResp (parse_cookies_to_dict a.silent_cookies) with e | r
      · rw [refresh_cookies_clienterror env now a e h1 h2 hr]
        exact ⟨rfl, by simp⟩
      · by_cases hbad : r.success = false ∨ r.updated_cookies.truthy = false ∨
          pyTruthyStr r.access_token = false
        · rw [refresh_cookies_badresult env now a r h1 h2 hr hbad]
          exact ⟨rfl, by simp⟩
        · push_neg at hbad
          obtain ⟨hs, hu, ht⟩ := hbad
          have hs' : r.success = true := by simpa using hs
          have hu' : r.updated_cookies.truthy = true := by simpa using hu
          have ht' : pyTruthyStr r.access_token = true := by simpa using ht
          rw [refresh_cookies_good env now a r h1 h2 hr hs' hu' ht']
          have hcond : (pyTruthyStr (committedUpdate now a r).access_token
              && !(pyTruthyStr (committedUpdate now a r).token)) = false := by
            show (pyTruthyStr r.access_token && !(pyTruthyStr a.token)) = false
            rw [h]
            simp
          rw [if_neg (by simp [hcond])]
          obtain ⟨e1, e2, e3, e4, e5, e6, e7, e8⟩ := step5_acc_pres env
            (committedUpdate now a r) (some (committedUpdate now a r))
            [Ev.refreshCall (parse_cookies_to_dict a.silent_cookies), Ev.commit]
          refine ⟨e7.trans rfl, ?_⟩
          intro t
          rw [step5_events]
          simp
    · rw [refresh_cookies_gate2 env now a h1 (by simpa using h2)]
      exact ⟨rfl, by simp⟩
  · rw [refresh_cookies_gate1 env now a (by simpa using h1)]
    exact ⟨rfl, by simp⟩

/-- The pipeline never changes the row's primary key. -/
theorem refresh_acc_id (env : Env) (now : Int) (a : Account) :
    (refresh_cookies env now a).acc.id = a.id := by
  by_cases h1 : a.silent_cookies.truthy = true
  · by_cases h2 : (parse_cookies_to_dict a.silent_cookies).truthy = true
    · rcases hr : env.refreshResp (parse_cookies_to_dict a.silent_cookies) with e | r
      · rw [refresh_cookies_clienterror env now a e h1 h2 hr]
      · by_cases hbad : r.success = false ∨ r.updated_cookies.truthy = false ∨
          pyTruthyStr r.access_token = false
        · rw [refresh_cookies_badresult env now a r h1 h2 hr hbad]
        · push_neg at hbad
          obtain ⟨hs, hu, ht⟩ := hbad
          have hs' : r.success = true := by simpa using hs
          have hu' : r.updated_cookies.truthy = true := by simpa using hu
          have ht' : pyTruthyStr r.access_token = true := by simpa using ht
          rw [refresh_cookies_good env now a r h1 h2 hr hs' hu' ht']
          split
          · rcases hd : env.signinResp (committedUpdate now a r).access_token with e | d
            · rfl
            · exact ((step5_acc_pres env _ _ _).2.2.2.2.2.2.2).trans rfl
          · exact ((step5_acc_pres env _ _ _).2.2.2.2.2.2.2).trans rfl
    · rw [refresh_cookies_gate2 env now a h1 (by simpa using h2)]
  · rw [refresh_cookies_gate1 env now a (by simpa using h1)]

/-- Every event emitted by the cache-put mirroring is a `cachePut` of
the given snapshot. -/
theorem cacheMirrorPut_mem (env : Env) (x : Account) (e : Ev)
    (h : e ∈ cacheMirrorPut env x) : ∃ p, e = Ev.cachePut x p := by
  unfold cacheMirrorPut at h
  split at h
  · split at h
    · simp at h
      exact ⟨false, h⟩
    · rcases List.mem_cons.mp h with h | h
      · exact ⟨false, h⟩
      · split at h
        · simp at h
          exact ⟨true, h⟩
        · simp at h
  · simp at h

/-- Every event emitted by the cache-remove mirroring is a `cacheRemove`
of the given id. -/
theorem cacheMirrorRemove_mem (env : Env) (x : Account) (e : Ev)
    (h : e ∈ cacheMirrorRemove env x) : ∃ p, e = Ev.cacheRemove x.id p := by
  unfold cacheMirrorRemove at h
  split at h
  · split at h
    · simp at h
      exact ⟨false, h⟩
    · rcases List.mem_cons.mp h with h | h
      · exact ⟨false, h⟩
      · split at h
        · simp at h
          exact ⟨true, h⟩
        · simp at h
  · simp at h

/-- Committing a row whose id matches the found row makes the next
by-id lookup return it. -/
theorem find?_updateById (db : List Account) (i : Nat) (a a' : Account)
    (hid : a'.id = a.id) :
    db.find? (fun b => b.id == i) = some a →
    (updateById db a').find? (fun b => b.id == i) = some a' := by
  induction db with
  | nil =>
    intro h
    simp at h
  | cons b l ih =>
    intro h
    by_cases hb : (b.id == i) = true
    · have hba : b = a := by
        rw [List.find?_cons_of_pos (p := fun x : Account => x.id == i) _ hb] at h
        exact Option.some_injective _ h
      have hai : a.id = i := by
        rw [← hba]
        simpa using hb
      have hb' : (b.id == a'.id) = true := by
        rw [hid, ← hba]
        simp
      show ((if b.id == a'.id then a' else b) :: updateById l a').find?
          (fun b => b.id == i) = some a'
      rw [if_pos hb']
      exact List.find?_cons_of_pos (p := fun x : Account => x.id == i) _ (by simp [hid, hai])
    · have hfl : l.find? (fun b => b.id == i) = some a := by
        rw [List.find?_cons_of_neg (p := fun x : Account => x.id == i) _ (by simpa using hb)] at h
        exact h
      have hai : a.id = i := by
        simpa using List.find?_some hfl
      have hbn : (b.id == a'.id) = false := by
        rw [hid, hai]
        simpa using hb
      show ((if b.id == a'.id then a' else b) :: updateById l a').find?
          (fun b => b.id == i) = some a'
      rw [if_neg (by simp [hbn])]
      rw [List.find?_cons_of_neg (p := fun x : Account => x.id == i) _ (by simpa using hb)]
      exact ih hfl

/-- A unit of work on a row that already holds a session token issues no
sign-in call and leaves a row with the same token behind for the next
cycle. -/
theorem refresh_single_token_invariant (env : Env) (now : Int)
    (db : List Account) (i : Nat) (a : Account)
    (h : db.find? (fun b => b.id == i) = some a)
    (htok : pyTruthyStr a.token = true) :
    ∃ a', (refresh_single_account env now db i).1.find? (fun b => b.id == i) = some a' ∧
      pyTruthyStr a'.token = true ∧
      ∀ t, Ev.signinCall t ∉ (refresh_single_account env now db i).2 := by
  obtain ⟨hpt, hpe⟩ := refresh_token_preserved env now a htok
  have hid := refresh_acc_id env now a
  rw [refresh_single_account_found env now db i a h]
  split
  · refine ⟨{ (refresh_cookies env now a).acc with enable := 1 }, ?_, ?_, ?_⟩
    · exact find?_updateById db i a _ hid h
    · show pyTruthyStr (refresh_cookies env now a).acc.token = true
      rw [hpt]
      exact htok
    · intro t hmem
      rcases List.mem_cons.mp hmem with h0 | hmem
      · exact Ev.noConfusion h0
      · rcases List.mem_append.mp hmem with hm | hm
        · exact hpe t hm
        · rcases List.mem_cons.mp hm with h0 | hm
          · exact Ev.noConfusion h0
          · obtain ⟨p, hp⟩ := cacheMirrorPut_mem _ _ _ hm
            exact Ev.noConfusion hp
  · refine ⟨{ (refresh_cookies env now a).acc with enable := 0 }, ?_, ?_, ?_⟩
    · exact find?_updateById db i a _ hid h
    · show pyTruthyStr (refresh_cookies env now a).acc.token = true
      rw [hpt]
      exact htok
    · intro t hmem
      rcases List.mem_cons.mp hmem with h0 | hmem
      · exact Ev.noConfusion h0
      · rcases List.mem_append.mp hmem with hm | hm
        · exact hpe t hm
        · rcases List.mem_cons.mp hm with h0 | hm
          · exact Ev.noConfusion h0
          · obtain ⟨p, hp⟩ := cacheMirrorRemove_mem _ _ _ hm
            exact Ev.noConfusion hp

/-- Iterated refresh cycles on a row that already holds a session token
never sign in. -/
theorem runPipelineN_no_signin (env : Env) (now : Int) (i : Nat) :
    ∀ (n : Nat) (db : List Account) (a : Account),
      db.find? (fun b => b.id == i) = some a →
      pyTruthyStr a.token = true →
      ∀ t, Ev.signinCall t ∉ (runPipelineN env now i n db).2 := by
  intro n
  induction n with
  | zero =>
    intro db a h htok t
    simp [runPipelineN]
  | succ m ih =>
    intro db a h htok t
    obtain ⟨a', hfind, htok', hnosig⟩ := refresh_single_token_invariant env now db i a h htok
    simp only [runPipelineN]
    intro hmem
    rcases List.mem_append.mp hmem with hm | hm
    · exact hnosig t hm
    · exact ih _ a' hfind htok' t hm

/-- When a sign-in call happens its argument is the (truthy) access
token just obtained from the refresh client. -/
theorem refresh_signin_arg_truthy (env : Env) (now : Int) (a : Account)
    (t : Option String)
    (h : Ev.signinCall t ∈ (refresh_cookies env now a).events) :
    pyTruthyStr t = true := by
  by_cases h1 : a.silent_cookies.truthy = true
  · by_cases h2 : (parse_cookies_to_dict a.silent_cookies).truthy = true
    · rcases hr : env.refreshResp (parse_cookies_to_dict a.silent_cookies) with e | r
      · rw [refresh_cookies_clienterror env now a e h1 h2 hr] at h
        simp at h
      · by_cases hbad : r.success = false ∨ r.updated_cookies.truthy = false ∨
          pyTruthyStr r.access_token = false
        · rw [refresh_cookies_badresult env now a r h1 h2 hr hbad] at h
          simp at h
        · push_neg at hbad
          obtain ⟨hs, hu, ht⟩ := hbad
          have hs' : r.success = true := by simpa using hs
          have hu' : r.updated_cookies.truthy = true := by simpa using hu
          have ht' : pyTruthyStr r.access_token = true := by simpa using ht
          rw [refresh_cookies_good env now a r h1 h2 hr hs' hu' ht'] at h
          have hat : pyTruthyStr (committedUpdate now a r).access_token = true := ht'
          by_cases hcond : (pyTruthyStr (committedUpdate now a r).access_token
              && !(pyTruthyStr (committedUpdate now a r).token)) = true
          · rw [if_pos hcond] at h
            rcases hd : env.signinResp (committedUpdate now a r).access_token with e | d <;>
              rw [hd] at h
            · simp at h
              rw [h]
              exact hat
            · rw [step5_events] at h
              simp at h
              rw [h]
              exact hat
          · rw [if_neg hcond] at h
            rw [step5_events] at h
            simp at h
    · rw [refresh_cookies_gate2 env now a h1 (by simpa using h2)] at h
      simp at h
  · rw [refresh_cookies_gate1 env now a (by simpa using h1)] at h
    simp at h

/-- C6: session-token derivation is lazy and at most once per account:
the sign-in call is issued only with the truthy freshly-obtained access
token and only when the session token is absent (a pipeline run on an
account that already holds one issues no sign-in and keeps the token),
and any number of subsequent refresh cycles on such an account never
signs in again. -/
theorem c6_signin_at_most_once :
    (∀ (env : Env) (now : Int) (a : Account),
      pyTruthyStr a.token = true →
      (∀ t, Ev.signinCall t ∉ (refresh_cookies env now a).events) ∧
      (refresh_cookies env now a).acc.token = a.token) ∧
    (∀ (env : Env) (now : Int) (a : Account) (t : Option String),
      Ev.signinCall t ∈ (refresh_cookies env now a).events →
      pyTruthyStr t = true) ∧
    (∀ (env : Env) (now : Int) (db : List Account) (i : Nat) (a : Account),
      db.find? (fun b => b.id == i) = some a →
      pyTruthyStr a.token = true →
      ∀ (n : Nat) (t : Option String),
        Ev.signinCall t ∉ (runPipelineN env now i n db).2) :=
  ⟨fun env now a h =>
    ⟨(refresh_token_preserved env now a h).2, (refresh_token_preserved env now a h).1⟩,
   refresh_signin_arg_truthy,
   fun env now db i a h htok n t => runPipelineN_no_signin env now i n db a h htok t⟩

/-- Witness for C6: two further cycles on an account holding a session
token issue no sign-in call. -/
theorem c6_signin_at_most_once_witness :
    Ev.signinCall (some "x") ∉ (runPipelineN envOk 0 1 2 [acctTok]).2 :=
  c6_signin_at_most_once.2.2 envOk 0 [acctTok] 1 acctTok rfl rfl 2 (some "x")

/-- The daily-reset loop only appends events. -/
theorem foldPut_mem_init (env : Env) (accounts : List Account) :
    ∀ (init : List Ev) (e : Ev), e ∈ init →
      e ∈ accounts.foldl
        (fun evs a =>
          if a.count > 0 then evs ++ cacheMirrorPut env { a with count := 0 } else evs)
        init := by
  induction accounts with
  | nil =>
    intro init e h
    simpa using h
  | cons b l ih =>
    intro init e h
    simp only [List.foldl_cons]
    by_cases hb : b.count > 0
    · rw [if_pos hb]
      exact ih _ e (List.mem_append_left _ h)
    · rw [if_neg hb]
      exact ih _ e h

/-- Each selected account with a positive counter contributes its cache
puts to the daily-reset trace. -/
theorem foldPut_mem_put (env : Env) (accounts : List Account) :
    ∀ (init : List Ev) (a : Account), a ∈ accounts → a.count > 0 →
      ∀ e ∈ cacheMirrorPut env { a with count := 0 },
        e ∈ accounts.foldl
          (fun evs a =>
            if a.count > 0 then evs ++ cacheMirrorPut env { a with count := 0 } else evs)
          init := by
  induction accounts with
  | nil =>
    intro init a h
    simp at h
  | cons b l ih =>
    intro init a ha hc e he
    simp only [List.foldl_cons]
    rcases List.mem_cons.mp ha with rfl | ha
    · rw [if_pos hc]
      exact foldPut_mem_init env l _ e (List.mem_append_right _ he)
    · by_cases hb : b.count > 0
      · rw [if_pos hb]
        exact ih _ a ha hc e he
      · rw [if_neg hb]
        exact ih _ a ha hc e he

/-- Conversely, every event of the daily-reset loop is either initial or
a cache put for some selected account with a positive counter. -/
theorem foldPut_mem_elim (env : Env) (accounts : List Account) :
    ∀ (init : List Ev) (e : Ev),
      e ∈ accounts.foldl
        (fun evs a =>
          if a.count > 0 then evs ++ cacheMirrorPut env { a with count := 0 } else evs)
        init →
      e ∈ init ∨ ∃ a, a ∈ accounts ∧ a.count > 0 ∧
        e ∈ cacheMirrorPut env { a with count := 0 } := by
  induction accounts with
  | nil =>
    intro init e h
    left
    simpa using h
  | cons b l ih =>
    intro init e h
    simp only [List.foldl_cons] at h
    by_cases hb : b.count > 0
    · rw [if_pos hb] at h
      rcases ih _ e h with hi | ⟨a, ha, hc, he⟩
      · rcases List.mem_append.mp hi with hi | hi
        · left
          exact hi
        · right
          exact ⟨b, List.mem_cons_self _ _, hb, hi⟩
      · right
        exact ⟨a, List.mem_cons_of_mem _ ha, hc, he⟩
    · rw [if_neg hb] at h
      rcases ih _ e h with hi | ⟨a, ha, hc, he⟩
      · left
        exact hi
      · right
        exact ⟨a, List.mem_cons_of_mem _ ha, hc, he⟩

/-- C7: the daily reset zeroes `count` exactly for the accounts that are
enabled, live and have a positive counter; when Redis is up each such
account is re-mirrored into the free partition — and into the paid one
when it is paid and the free put did not raise — with a snapshot whose
counter is already 0; every cache put in the trace belongs to such an
account; all other rows are mapped to themselves, and when the selection
is empty no commit is issued at all. -/
theorem c7_daily_reset :
    ∀ (env : Env) (db : List Account),
      (reset_account_counts env db).1
        = db.map (fun a => if resetCond a then { a with count := 0 } else a) ∧
      (∀ a, a ∈ db → resetCond a = true → env.redisUp = true →
        Ev.cachePut { a with count := 0 } false ∈ (reset_account_counts env db).2 ∧
        (env.cacheOpFails = false → Account.isPaid { a with count := 0 } = true →
          Ev.cachePut { a with count := 0 } true ∈ (reset_account_counts env db).2)) ∧
      (∀ s p, Ev.cachePut s p ∈ (reset_account_counts env db).2 →
        s.count = 0 ∧ ∃ a, a ∈ db ∧ resetCond a = true ∧ s = { a with count := 0 }) ∧
      (enabledLiveSelection db = [] →
        (reset_account_counts env db).2 = [Ev.query QueryKind.enabledLive]) := by
  intro env db
  by_cases hemp : (enabledLiveSelection db).isEmpty = true
  · have hnil : enabledLiveSelection db = [] := by simpa using hemp
    have hnone : ∀ a ∈ db, (a.enable == 1 && a.deleted_at.isNone) = false := by
      intro a ha
      by_contra hcon
      have hmem : a ∈ enabledLiveSelection db :=
        List.mem_filter.mpr ⟨ha, by simpa using hcon⟩
      rw [hnil] at hmem
      simp at hmem
    have hres : reset_account_counts env db = (db, [Ev.query QueryKind.enabledLive]) := by
      unfold reset_account_counts
      rw [if_pos hemp]
    rw [hres]
    have hcongr : ∀ a ∈ db, (fun a => if resetCond a then { a with count := 0 } else a) a = id a := by
      intro a ha
      have hrc : resetCond a = false := by
        unfold resetCond
        rw [Bool.and_eq_false_iff]
        left
        exact hnone a ha
      simp [hrc]
    refine ⟨?_, ?_, ?_, fun _ => rfl⟩
    · rw [List.map_congr_left hcongr, List.map_id]
    · intro a ha hrc hup
      exfalso
      have h1 : (a.enable == 1 && a.deleted_at.isNone) = true := by
        unfold resetCond at hrc
        rw [Bool.and_eq_true] at hrc
        exact hrc.1
      rw [hnone a ha] at h1
      exact Bool.false_ne_true h1
    · intro s p hmem
      simp at hmem
  · have hres : reset_account_counts env db =
        (db.map (fun a => if resetCond a then { a with count := 0 } else a),
         (enabledLiveSelection db).foldl
           (fun evs a =>
             if a.count > 0 then evs ++ cacheMirrorPut env { a with count := 0 } else evs)
           [Ev.query QueryKind.enabledLive] ++ [Ev.commit]) := by
      unfold reset_account_counts
      rw [if_neg hemp]
    rw [hres]
    refine ⟨rfl, ?_, ?_, ?_⟩
    · intro a ha hrc hup
      have hsel : a ∈ enabledLiveSelection db := by
        refine List.mem_filter.mpr ⟨ha, ?_⟩
        unfold resetCond at hrc
        rw [Bool.and_eq_true] at hrc
        exact hrc.1
      have hcnt : a.count > 0 := by
        unfold resetCond at hrc
        rw [Bool.and_eq_true] at hrc
        exact of_decide_eq_true hrc.2
      constructor
      · apply List.mem_append_left
        apply foldPut_mem_put env _ _ a hsel hcnt
        cases hcf : env.cacheOpFails <;> simp [cacheMirrorPut, hup, hcf]
      · intro hfail hpaid
        apply List.mem_append_left
        apply foldPut_mem_put env _ _ a hsel hcnt
        simp [cacheMirrorPut, hup, hfail, hpaid]
    · intro s p hmem
      rcases List.mem_append.mp hmem with hm | hm
      · rcases foldPut_mem_elim env _ _ _ hm with hi | ⟨a, ha, hc, he⟩
        · simp at hi
        · obtain ⟨p', hp'⟩ := cacheMirrorPut_mem _ _ _ he
          rw [Ev.cachePut.injEq] at hp'
          obtain ⟨hdb, hpred⟩ := List.mem_filter.mp ha
          refine ⟨by rw [hp'.1], a, hdb, ?_, hp'.1⟩
          unfold resetCond
          rw [Bool.and_eq_true]
          exact ⟨hpred, decide_eq_true hc⟩
      · simp at hm
    · intro hnil
      exact absurd (by rw [hnil]; rfl) hemp

/-- Witness for C7 at Scenario D: an enabled, live account with
`count = 5` gets a free-partition cache put with a zeroed snapshot. -/
theorem c7_daily_reset_witness :
    Ev.cachePut { acctCnt with count := 0 } false
      ∈ (reset_account_counts envOk [acctCnt]).2 :=
  ((c7_daily_reset envOk [acctCnt]).2.1 acctCnt (by simp) rfl rfl).1

/-- The pipeline itself issues no store query at all. -/
theorem refresh_cookies_no_query (env : Env) (now : Int) (a : Account)
    (q : QueryKind) : Ev.query q ∉ (refresh_cookies env now a).events := by
  by_cases h1 : a.silent_cookies.truthy = true
  · by_cases h2 : (parse_cookies_to_dict a.silent_cookies).truthy = true
    · rcases hr : env.refreshResp (parse_cookies_to_dict a.silent_cookies) with e | r
      · rw [refresh_cookies_clienterror env now a e h1 h2 hr]
        simp
      · by_cases hbad : r.success = false ∨ r.updated_cookies.truthy = false ∨
          pyTruthyStr r.access_token = false
        · rw [refresh_cookies_badresult env now a r h1 h2 hr hbad]
          simp
        · push_neg at hbad
          obtain ⟨hs, hu, ht⟩ := hbad
          have hs' : r.success = true := by simpa using hs
          have hu' : r.updated_cookies.truthy = true := by simpa using hu
          have ht' : pyTruthyStr r.access_token = true := by simpa using ht
          rw [refresh_cookies_good env now a r h1 h2 hr hs' hu' ht']
          split
          · rcases hd : env.signinResp (committedUpdate now a r).access_token with e | d
            · simp
            · rw [step5_events]
              simp
          · rw [step5_events]
            simp
    · rw [refresh_cookies_gate2 env now a h1 (by simpa using h2)]
      simp
  · rw [refresh_cookies_gate1 env now a (by simpa using h1)]
    simp

/-- The only query a dispatched unit of work issues is its by-id lookup. -/
theorem refresh_single_queries (env : Env) (now : Int) (db : List Account)
    (i : Nat) (q : QueryKind) :
    Ev.query q ∈ (refresh_single_account env now db i).2 → q = QueryKind.byId i := by
  rcases hf : db.find? (fun b => b.id == i) with _ | a
  · unfold refresh_single_account
    rw [hf]
    intro h
    simpa using h
  · rw [refresh_single_account_found env now db i a hf]
    split
    · intro h
      rcases List.mem_cons.mp h with h0 | h
      · rw [Ev.query.injEq] at h0
        exact h0
      · rcases List.mem_append.mp h with hm | hm
        · exact absurd hm (refresh_cookies_no_query env now a q)
        · rcases List.mem_cons.mp hm with h0 | hm
          · exact Ev.noConfusion h0
          · obtain ⟨p, hp⟩ := cacheMirrorPut_mem _ _ _ hm
            exact Ev.noConfusion hp
    · intro h
      rcases List.mem_cons.mp h with h0 | h
      · rw [Ev.query.injEq] at h0
        exact h0
      · rcases List.mem_append.mp h with hm | hm
        · exact absurd hm (refresh_cookies_no_query env now a q)
        · rcases List.mem_cons.mp hm with h0 | hm
          · exact Ev.noConfusion h0
          · obtain ⟨p, hp⟩ := cacheMirrorRemove_mem _ _ _ hm
            exact Ev.noConfusion hp

/-- The batch dispatch loop only appends events. -/
theorem foldBatch_mem_init (env : Env) (now : Int) (accounts : List Account) :
    ∀ (st : List Account × List Ev) (e : Ev), e ∈ st.2 →
      e ∈ (accounts.foldl
        (fun st a =>
          let p := refresh_single_account env now st.1 a.id
          (p.1, st.2 ++ p.2)) st).2 := by
  induction accounts with
  | nil =>
    intro st e h
    simpa using h
  | cons b l ih =>
    intro st e h
    simp only [List.foldl_cons]
    exact ih _ e (List.mem_append_left _ h)

/-- No step of the batch dispatch loop ever issues the expiry-window
query. -/
theorem foldBatch_no_expiring (env : Env) (now : Int) (accounts : List Account) :
    ∀ (st : List Account × List Ev),
      Ev.query QueryKind.expiring ∉ st.2 →
      Ev.query QueryKind.expiring ∉
        (accounts.foldl
          (fun st a =>
            let p := refresh_single_account env now st.1 a.id
            (p.1, st.2 ++ p.2)) st).2 := by
  induction accounts with
  | nil =>
    intro st h
    simpa using h
  | cons b l ih =>
    intro st h
    simp only [List.foldl_cons]
    apply ih
    intro hmem
    rcases List.mem_append.mp hmem with hm | hm
    · exact h hm
    · exact QueryKind.noConfusion (refresh_single_queries env now st.1 b.id _ hm)

/-- The batch pass never issues the expiry-window query. -/
theorem batch_no_expiring (env : Env) (now : Int) (db : List Account) :
    Ev.query QueryKind.expiring ∉ (check_and_refresh_accounts env now db).2 := by
  unfold check_and_refresh_accounts
  by_cases hemp : (liveSelection db).isEmpty = true
  · rw [if_pos hemp]
    simp
  · rw [if_neg hemp]
    exact foldBatch_no_expiring env now (liveSelection db)
      (db, [Ev.query QueryKind.liveOnly]) (by simp)

/-- The daily reset never issues the expiry-window query. -/
theorem reset_no_expiring (env : Env) (db : List Account) :
    Ev.query QueryKind.expiring ∉ (reset_account_counts env db).2 := by
  intro h
  unfold reset_account_counts at h
  by_cases hemp : (enabledLiveSelection db).isEmpty = true
  · rw [if_pos hemp] at h
    simp at h
  · rw [if_neg hemp] at h
    rcases List.mem_append.mp h with hm | hm
    · rcases foldPut_mem_elim env _ _ _ hm with hi | ⟨a, ha, hc, he⟩
      · simp at hi
      · obtain ⟨p, hp⟩ := cacheMirrorPut_mem _ _ _ he
        exact Ev.noConfusion hp
    · simp at hm

/-- C5: the periodic batch selection filters only on the null
soft-delete marker (it issues the live-only query and selects even a
disabled account whose expiry is far outside the 7-day window), while
the expiry-filtered lookup exists — it issues the expiry-window query —
but neither registered trigger nor the batch pass ever issues that
query. -/
theorem c5_batch_selection :
    (∀ db, liveSelection db = db.filter (fun a => a.deleted_at.isNone)) ∧
    (∀ (env : Env) (now : Int) (db : List Account),
      Ev.query QueryKind.liveOnly ∈ (check_and_refresh_accounts env now db).2) ∧
    (∀ j, j ∈ scheduledJobs → ∀ (env : Env) (now : Int) (db : List Account),
      Ev.query QueryKind.expiring ∉ (jobAction j env now db).2) ∧
    (∀ (now : Int) (db : List Account),
      (find_expiring_accounts now db).2 = [Ev.query QueryKind.expiring]) ∧
    (acctFar ∈ liveSelection [acctFar] ∧ (find_expiring_accounts 0 [acctFar]).1 = []) := by
  refine ⟨fun db => rfl, ?_, ?_, fun now db => rfl, ?_, rfl⟩
  · intro env now db
    unfold check_and_refresh_accounts
    by_cases hemp : (liveSelection db).isEmpty = true
    · rw [if_pos hemp]
      simp
    · rw [if_neg hemp]
      exact foldBatch_mem_init env now (liveSelection db)
        (db, [Ev.query QueryKind.liveOnly]) _ (by simp)
  · intro j hj env now db
    cases j with
    | batchRefresh => exact batch_no_expiring env now db
    | resetCounts => exact reset_no_expiring env db
  · simp [liveSelection, acctFar, acct0]

/-- Witness for C5: the batch-refresh trigger on a concrete store issues
no expiry-window query. -/
theorem c5_batch_selection_witness :
    Ev.query QueryKind.expiring ∉ (jobAction JobKind.batchRefresh envOk 0 [acctFar]).2 :=
  c5_batch_selection.2.2.1 JobKind.batchRefresh (by simp [scheduledJobs]) envOk 0 [acctFar]
